import Mathlib

/-!
Shallow embedding of the `workflow_mgmg` package (retry policies, status
model, persistence journaling, and the workstep/workflow runners) together
with theorems settling the frozen claims about it.

Source files embedded:
- `workflow_mgmg/models.py` (status enums, instance rows, `set_status`)
- `workflow_mgmg/retry_policies.py` (policy hierarchy)
- `workflow_mgmg/workflow.py` (decorators, policy resolution, retry loop)
-/

namespace WorkflowMgmg

/-! ## Status model (`models.py`) -/

/-- Embedding of `WorkflowStatus` enum, `models.py` lines 9-15. -/
inductive WorkflowStatus
  | INSTANTIATED
  | RUNNING
  | COMPLETED
  | FAILED
  | CANCELLED
  | PENDING
deriving DecidableEq, Repr

/-- Embedding of `WorkStepStatus` enum, `models.py` lines 29-36. -/
inductive WorkStepStatus
  | INSTANTIATED
  | RUNNING
  | COMPLETED
  | FAILED
  | CANCELLED
  | WAITING
  | PENDING_COMPLETION
deriving DecidableEq, Repr

/-- Embedding of `WorkflowStatus.is_final_state`, `models.py` lines 17-18. -/
def WorkflowStatus.is_final_state : WorkflowStatus → Bool
  | .CANCELLED => true
  | .COMPLETED => true
  | _ => false

/-- Embedding of `WorkflowStatus.next_states`, `models.py` lines 20-27.  The Python dict
has no key for `COMPLETED` or `CANCELLED`, so looking those up raises
`KeyError`; that is modelled by `none`. -/
def WorkflowStatus.next_states : WorkflowStatus → Option (List WorkflowStatus)
  | .INSTANTIATED => some [.RUNNING]
  | .RUNNING => some [.FAILED, .COMPLETED, .PENDING, .CANCELLED]
  | .FAILED => some [.RUNNING, .CANCELLED]
  | .PENDING => some [.COMPLETED, .CANCELLED]
  | _ => none

/-- Embedding of `WorkStepStatus.is_final_state`, `models.py` lines 38-39. -/
def WorkStepStatus.is_final_state : WorkStepStatus → Bool
  | .CANCELLED => true
  | .COMPLETED => true
  | _ => false

/-- Embedding of `WorkStepStatus.next_states`, `models.py` lines 41-49; missing dict keys
(`COMPLETED`, `CANCELLED`) again modelled by `none` (Python `KeyError`). -/
def WorkStepStatus.next_states : WorkStepStatus → Option (List WorkStepStatus)
  | .INSTANTIATED => some [.RUNNING]
  | .RUNNING => some [.WAITING, .FAILED, .COMPLETED, .PENDING_COMPLETION, .CANCELLED]
  | .WAITING => some [.RUNNING, .CANCELLED]
  | .FAILED => some [.RUNNING, .CANCELLED]
  | .PENDING_COMPLETION => some [.COMPLETED, .CANCELLED]
  | _ => none

/-! ## Python exception kinds

`should_retry` only ever inspects the exact runtime class of the raised
exception (`type(exception)`), and `ConditionalRetryPolicy` uses
`isinstance`.  We model an exception by its exact class; all classes are
subclasses of `Exception` (`exceptionBase`). -/

inductive ExcKind
  | ValueError
  | KeyError
  | ConnectionError
  | TimeoutError
  | RuntimeError
  | exceptionBase
  | other (n : Nat)
deriving DecidableEq, Repr

/-- Python `isinstance(e, c)` for the flat class hierarchy modelled here:
an exception of exact class `e` is an instance of class `c` iff the classes
are equal or `c` is the root class `Exception`. -/
def ExcKind.isInstanceOf (e c : ExcKind) : Bool :=
  e == c || c == .exceptionBase

/-! ## Retry policies (`retry_policies.py`) -/

/-- One element of the Python list `self.exclude_exceptions`.  The base
constructor seeds it with the class `ValueError` and then — line 16 —
`append`s the caller's *whole list* as a single element, so entries are
either an exception class or a list of exception classes. -/
inductive ExcludeEntry
  | cls (k : ExcKind)
  | clsList (ks : List ExcKind)
deriving DecidableEq, Repr

/-- Python `type(exception) == entry` as used by the membership test
`type(exception) in self.exclude_exceptions` (`retry_policies.py` line 25):
a class equals a class of the same kind; a class never equals a list. -/
def ExcludeEntry.matchesType (e : ExcKind) : ExcludeEntry → Bool
  | .cls k => e == k
  | .clsList _ => false

/-- Which concrete `RetryPolicy` subclass a policy value is, together with
the subclass-specific constructor state.  The jitter variant's
`random.random()` calls are modelled by the oracle `rand`, giving the
sampled value (in `[0,1]`) for each attempt. -/
inductive PolicyKind
  | linear
  | exponential (max_delay : Rat)
  | exponentialJitter (max_delay : Rat) (rand : Nat → Rat)
  | conditional (retryable_exceptions : List ExcKind)

/-- A `RetryPolicy` object (`retry_policies.py` lines 7-27): the base-class
attributes plus the subclass tag. -/
structure RetryPolicy where
  kind : PolicyKind
  max_retries : Nat
  base_delay : Rat
  exclude_exceptions : List ExcludeEntry

/-- The base constructor `RetryPolicy.__init__` (`retry_policies.py`
lines 10-16): seeds `exclude_exceptions` with the class `ValueError`, then
`if exclude_exceptions:` (truthiness: `None` and the empty list are falsy)
`append`s the given *list* as a single element. -/
def RetryPolicy.init_base (kind : PolicyKind) (max_retries : Nat) (base_delay : Rat)
    (exclude_exceptions : Option (List ExcKind)) : RetryPolicy :=
  { kind := kind
    max_retries := max_retries
    base_delay := base_delay
    exclude_exceptions :=
      .cls .ValueError ::
        (match exclude_exceptions with
          | some l => if l.isEmpty then [] else [.clsList l]
          | none => []) }

/-- Embedding of `LinearRetryPolicy(max_retries, base_delay, exclude_exceptions)`. -/
def LinearRetryPolicy.make (max_retries : Nat := 3) (base_delay : Rat := 1)
    (exclude_exceptions : Option (List ExcKind) := none) : RetryPolicy :=
  RetryPolicy.init_base .linear max_retries base_delay exclude_exceptions

/-- Embedding of `ExponentialRetryPolicy(max_retries, base_delay, max_delay, exclude_exceptions)`
(`retry_policies.py` lines 38-41). -/
def ExponentialRetryPolicy.make (max_retries : Nat := 3) (base_delay : Rat := 1)
    (max_delay : Rat := 60) (exclude_exceptions : Option (List ExcKind) := none) : RetryPolicy :=
  RetryPolicy.init_base (.exponential max_delay) max_retries base_delay exclude_exceptions

/-- Embedding of `ConditionalRetryPolicy(max_retries, base_delay, retryable_exceptions)`
(`retry_policies.py` lines 59-62): calls the base constructor with *no*
exclusion list; `retryable_exceptions or (Exception,)`. -/
def ConditionalRetryPolicy.make (max_retries : Nat := 3) (base_delay : Rat := 1)
    (retryable_exceptions : Option (List ExcKind) := none) : RetryPolicy :=
  RetryPolicy.init_base
    (.conditional (match retryable_exceptions with
      | some l => if l.isEmpty then [.exceptionBase] else l
      | none => [.exceptionBase]))
    max_retries base_delay none

/-- Embedding of `should_retry` (`retry_policies.py`): the base implementation at
lines 23-27 (`if self.exclude_exceptions and type(exception) in
self.exclude_exceptions: return False; return attempt <= self.max_retries`),
overridden by `ConditionalRetryPolicy` at lines 64-67. -/
def RetryPolicy.should_retry (p : RetryPolicy) (attempt : Nat) (e : ExcKind) : Bool :=
  match p.kind with
  | .conditional retryable =>
      if p.max_retries < attempt then false
      else retryable.any (fun c => e.isInstanceOf c)
  | _ =>
      if (!p.exclude_exceptions.isEmpty) && p.exclude_exceptions.any (fun x => x.matchesType e)
        then false
        else attempt ≤ p.max_retries

/-- Embedding of `get_delay` of each subclass.  The runner only ever calls it with
`attempt ≥ 1`, so `2 ** (attempt - 1)` is modelled with natural
subtraction. -/
def RetryPolicy.get_delay (p : RetryPolicy) (attempt : Nat) : Rat :=
  match p.kind with
  | .linear => p.base_delay * attempt
  | .exponential max_delay => min (p.base_delay * 2 ^ (attempt - 1)) max_delay
  | .exponentialJitter max_delay rand =>
      let b := min (p.base_delay * 2 ^ (attempt - 1)) max_delay
      max (1/10) (b + b * (1/4) * (2 * rand attempt - 1))
  | .conditional _ => p.base_delay

/-! ## Python values and `json.dumps`

The runner stores `payload_data = json.dumps(payload or {})` and
`result_data = json.dumps(_serialize_result(result))`.  `PyVal` models the
JSON-representable Python values that flow through these calls; `dumps` is
a plain JSON printer (string escaping is not modelled — the claims only
depend on which value is encoded). -/

inductive PyVal
  | pnone
  | pbool (b : Bool)
  | pint (n : Int)
  | pstr (s : String)
  | plist (xs : List PyVal)
  | pdict (fields : List (String × PyVal))

/-- Python truthiness of a `PyVal` (`None`, `0`, `""`, `[]`, `{}` falsy). -/
def PyVal.truthy : PyVal → Bool
  | .pnone => false
  | .pbool b => b
  | .pint n => n != 0
  | .pstr s => !s.isEmpty
  | .plist xs => !xs.isEmpty
  | .pdict f => !f.isEmpty

mutual

/-- Embedding of `json.dumps` on the modelled values. -/
def PyVal.dumps : PyVal → String
  | .pnone => "null"
  | .pbool true => "true"
  | .pbool false => "false"
  | .pint n => toString n
  | .pstr s => "\"" ++ s ++ "\""
  | .plist xs => "[" ++ PyVal.dumpsList xs ++ "]"
  | .pdict f => "\x7b" ++ PyVal.dumpsFields f ++ "\x7d"

def PyVal.dumpsList : List PyVal → String
  | [] => ""
  | [x] => PyVal.dumps x
  | x :: xs => PyVal.dumps x ++ ", " ++ PyVal.dumpsList xs

def PyVal.dumpsFields : List (String × PyVal) → String
  | [] => ""
  | [(k, v)] => "\"" ++ k ++ "\": " ++ PyVal.dumps v
  | (k, v) :: xs => "\"" ++ k ++ "\": " ++ PyVal.dumps v ++ ", " ++ PyVal.dumpsFields xs

end

/-- Embedding of `payload or {}` (`workflow.py` lines 369 and 444): the call-time payload
if it is truthy, else the empty dict.  An absent `payload` parameter shows
up as `None` (`bound_args.arguments.get('payload')`), hence `none` here. -/
def payloadOrEmpty : Option PyVal → PyVal
  | some v => if v.truthy then v else .pdict []
  | none => .pdict []

/-- Embedding of `_serialize_result` (`workflow.py` lines 503-509): try `json.dumps`,
fall back to `str(result)`.  Every modelled `PyVal` is JSON-representable,
so the fallback branch is never exercised in the model. -/
def _serialize_result (v : PyVal) : PyVal := v

/-- Python `int(x)` on a float/rational: truncation toward zero.  Used for
`retry_delay=int(retry_policy.base_delay)` (`workflow.py` line 368). -/
def pyIntTrunc (q : Rat) : Int :=
  if q < 0 then -((-q).floor) else q.floor

/-- The only Python runtime error the embedded engine itself can raise:
`workflow_instance.id` with `workflow_instance = None`
(`workflow.py` line 362 reached from the standalone path). -/
inductive PyError
  | attributeErrorNoneId
deriving DecidableEq, Repr

/-! ## Persistence rows touched by the workstep runner -/

/-- The columns of a `workflow_instance` row that the workstep runner
reads (`workflow.py` line 362 reads only `.id`). -/
structure WorkflowRowRef where
  id : Nat
deriving DecidableEq, Repr

/-- The mutable columns of one `workstep_instance` row
(`models.py` lines 131-148) as the runner sees them. -/
structure StepRec where
  workflow_instance_id : Option Nat
  step_id : String
  step_name : String
  bian_sd : String
  status : WorkStepStatus
  start_time : Option Nat
  end_time : Option Nat
  attempt_number : Nat
  max_retries : Nat
  retry_delay : Int
  error_message : Option ExcKind
  result_data : Option String
  payload_data : String
deriving DecidableEq, Repr

/-- The full observable state of one `_execute_with_retry` run over a
single logical store: the step row, the workstep lifecycle journal rows
written so far, the sleeps performed (`time.sleep(delay)`), the number of
user-function invocations, a snapshot of the step row at every
`session.commit()` in `workflow.py`, and a logical clock ticked at each
`datetime.now()`. -/
structure RunState where
  step : StepRec
  journal : List (WorkStepStatus × WorkStepStatus)
  sleeps : List Rat
  attemptsMade : Nat
  snapshots : List StepRec
  clock : Nat
deriving Repr

/-- Embedding of `datetime.now()`: returns the current tick and advances the clock. -/
def RunState.now (st : RunState) : Nat × RunState :=
  (st.clock, { st with clock := st.clock + 1 })

/-- A `session.commit()` in `workflow.py`: records the step row as it is
persisted at this observable point. -/
def RunState.commit (st : RunState) : RunState :=
  { st with snapshots := st.snapshots ++ [st.step] }

/-- Embedding of `WorkStepInstance.set_status` (`models.py` lines 156-169) as seen over
the single logical store of a run: mutate the status attribute and, iff it
changed, append one lifecycle row to the journal. -/
def RunState.set_status (st : RunState) (new_status : WorkStepStatus) : RunState :=
  let old_status := st.step.status
  let st := { st with step := { st.step with status := new_status } }
  if old_status ≠ new_status then
    { st with journal := st.journal ++ [(old_status, new_status)] }
  else st

/-! ## The retry loop (`_execute_with_retry`, `workflow.py` lines 355-428) -/

/-- Outcome of a run: normal return, a re-raised user exception, or the
`raise last_exception` at line 428 with `last_exception = None` (which in
Python would itself be a `TypeError`; the theorems show this branch is
unreachable from the entry point). -/
inductive RunOutcome
  | ok (v : PyVal)
  | raised (e : ExcKind)
  | raisedNone

/-- Result of one iteration of the `while` loop body
(`workflow.py` lines 381-423): either the loop is left (function return or
re-raise), or the failed attempt is retried after a sleep. -/
inductive BodyResult
  | done (st : RunState) (out : RunOutcome)
  | retry (st : RunState) (e : ExcKind)

/-- One iteration of the `while` loop body, `workflow.py` lines 381-423.
`behavior a` is the outcome of the user function call on attempt `a`
(`result = func(instance, *args, **kwargs)`, line 392). -/
def runAttemptBody (p : RetryPolicy) (behavior : Nat → Except ExcKind PyVal)
    (attempt : Nat) (st : RunState) : BodyResult :=
  -- line 383: step_instance.attempt_number = attempt
  let st := { st with step := { st.step with attempt_number := attempt } }
  -- line 385: step_instance.set_status(WorkStepStatus.RUNNING)
  let st := st.set_status .RUNNING
  -- line 386: step_instance.start_time = datetime.now()
  let (t, st) := st.now
  let st := { st with step := { st.step with start_time := some t } }
  -- line 387: session.commit()
  let st := st.commit
  -- line 392: result = func(instance, *args, **kwargs)
  let st := { st with attemptsMade := st.attemptsMade + 1 }
  match behavior attempt with
  | .ok result =>
      -- lines 396-399
      let st := st.set_status .COMPLETED
      let (t, st) := st.now
      let st := { st with step := { st.step with
        end_time := some t
        result_data := some (PyVal.dumps (_serialize_result result)) } }
      let st := st.commit
      .done st (.ok result)
  | .error e =>
      -- lines 405-407: last_exception, error_message, end_time
      let st := { st with step := { st.step with error_message := some e } }
      let (t, st) := st.now
      let st := { st with step := { st.step with end_time := some t } }
      -- line 410: if retry_policy.should_retry(attempt, e) and attempt <= retry_policy.max_retries
      if p.should_retry attempt e && attempt ≤ p.max_retries then
        -- lines 411-417
        let delay := p.get_delay attempt
        let st := st.set_status .RUNNING
        let st := st.commit
        let st := { st with sleeps := st.sleeps ++ [delay] }
        .retry st e
      else
        -- lines 420-423
        let st := st.set_status .FAILED
        let st := st.commit
        .done st (.raised e)

/-- Lines 425-428 of `workflow.py`, reached when the `while` condition
`attempt <= retry_policy.max_retries + 1` turns false. -/
def whileExit (st : RunState) (lastExc : Option ExcKind) : RunState × RunOutcome :=
  let st := st.set_status .FAILED
  let st := st.commit
  (st, match lastExc with
    | some e => .raised e
    | none => .raisedNone)

/-- The `while attempt <= retry_policy.max_retries + 1` loop,
`workflow.py` lines 380-428.  `fuel` is the loop's standard termination
measure `max_retries + 2 - attempt`: it is `0` exactly when the `while`
condition is false, and the retry branch (which requires
`attempt ≤ max_retries`) decrements it in step with `attempt += 1`, so on
every reachable call the two presentations coincide. -/
def execLoopFuel (p : RetryPolicy) (behavior : Nat → Except ExcKind PyVal) :
    Nat → Nat → Option ExcKind → RunState → RunState × RunOutcome
  | 0, _, lastExc, st => whileExit st lastExc
  | fuel + 1, attempt, lastExc, st =>
      if attempt ≤ p.max_retries + 1 then
        match runAttemptBody p behavior attempt st with
        | .done st out => (st, out)
        | .retry st e => execLoopFuel p behavior fuel (attempt + 1) (some e) st
      else whileExit st lastExc

/-- The `WorkStepInstance(...)` row built at `workflow.py` lines 361-370
(column defaults from `models.py`). -/
def initStepRec (w : WorkflowRowRef) (p : RetryPolicy) (step_id func_name bian_sd : String)
    (payload : Option PyVal) : StepRec :=
  { workflow_instance_id := some w.id
    step_id := step_id
    step_name := func_name
    bian_sd := bian_sd
    status := .INSTANTIATED
    start_time := none
    end_time := none
    attempt_number := 1      -- column default (`models.py` line 143)
    max_retries := p.max_retries
    retry_delay := pyIntTrunc p.base_delay
    error_message := none
    result_data := none
    payload_data := PyVal.dumps (payloadOrEmpty payload) }

/-- Embedding of `_execute_with_retry` (`workflow.py` lines 355-428).  Evaluating the
`WorkStepInstance(...)` keyword arguments dereferences
`workflow_instance.id` (line 362), which raises `AttributeError` when
`workflow_instance` is `None` — before any row is inserted. -/
def _execute_with_retry (workflow_instance : Option WorkflowRowRef) (p : RetryPolicy)
    (behavior : Nat → Except ExcKind PyVal) (step_id func_name bian_sd : String)
    (payload : Option PyVal) : Except PyError (RunState × RunOutcome) :=
  match workflow_instance with
  | none => .error .attributeErrorNoneId
  | some w =>
      -- lines 361-370: WorkStepInstance(...)
      let step : StepRec := initStepRec w p step_id func_name bian_sd payload
      let st : RunState :=
        { step := step, journal := [], sleeps := [], attemptsMade := 0,
          snapshots := [], clock := 0 }
      -- lines 372-373: session.add(step_instance); session.commit()
      let st := st.commit
      -- lines 375-428: attempt = 1; while ...
      .ok (execLoopFuel p behavior (p.max_retries + 1) 1 none st)

/-! ## Context, policy resolution and the workstep wrapper
(`workflow.py` lines 18-353) -/

/-- Embedding of `WorkflowContext` (`workflow.py` lines 18-24) as the workstep wrapper
reads it: the workflow row, whether `context.session` is set (the wrapper
tests `not context.session`), and the workflow-level retry policy. -/
structure WorkflowContext where
  workflow_instance : Option WorkflowRowRef
  hasSession : Bool
  workflow_retry_policy : Option RetryPolicy

/-- Embedding of `_determine_retry_policy` (`workflow.py` lines 268-297).  Python
truthiness: a context object and a policy object are truthy iff not
`None`, so `if workflow_context and workflow_context.workflow_retry_policy`
is the nested option match. -/
def _determine_retry_policy (step_retry_policy : Option RetryPolicy)
    (instance_retry_policy : Option RetryPolicy)
    (workflow_context : Option WorkflowContext) : RetryPolicy :=
  match step_retry_policy with
  | some p => p
  | none =>
      match instance_retry_policy with
      | some p => p
      | none =>
          match workflow_context with
          | some ctx =>
              match ctx.workflow_retry_policy with
              | some p => p
              | none => LinearRetryPolicy.make
          | none => LinearRetryPolicy.make

/-- Embedding of `step_id or f"{instance.__class__.__name__}.{func.__name__}"`
(`workflow.py` lines 302, 333): `or`-truthiness, so an empty string also
falls back to the derived id. -/
def resolveStepId (step_id : Option String) (instClass funcName : String) : String :=
  match step_id with
  | some s => if s.isEmpty then instClass ++ "." ++ funcName else s
  | none => instClass ++ "." ++ funcName

/-- Embedding of `_execute_standalone_workstep` (`workflow.py` lines 299-312): opens its
own session and delegates to `_execute_with_retry` with
`workflow_instance = None`. -/
def _execute_standalone_workstep (p : RetryPolicy) (behavior : Nat → Except ExcKind PyVal)
    (instClass funcName : String) (step_id : Option String) (bian_sd : String)
    (payload : Option PyVal) : Except PyError (RunState × RunOutcome) :=
  let actual_step_id := resolveStepId step_id instClass funcName
  _execute_with_retry none p behavior actual_step_id funcName bian_sd payload

/-- Embedding of `_execute_workstep_in_workflow` (`workflow.py` lines 329-340): reuses
the ambient session and passes `context.workflow_instance`. -/
def _execute_workstep_in_workflow (p : RetryPolicy) (behavior : Nat → Except ExcKind PyVal)
    (instClass funcName : String) (step_id : Option String) (bian_sd : String)
    (payload : Option PyVal) (ctx : WorkflowContext) : Except PyError (RunState × RunOutcome) :=
  let actual_step_id := resolveStepId step_id instClass funcName
  _execute_with_retry ctx.workflow_instance p behavior actual_step_id funcName bian_sd payload

/-- Embedding of `_execute_workstep_wrapper` (`workflow.py` lines 231-266), synchronous
path.  Line 238 rebinds the local `payload` to the call-time argument
bound to the parameter named `payload`
(`bound_args.arguments.get('payload')`, `none` when the parameter is
absent), shadowing the decoration-time `payload` option; the decorator
option is therefore never read past that line. -/
def _execute_workstep_wrapper (instClass : String)
    (instance_retry_policy : Option RetryPolicy) (funcName : String)
    (call_payload_arg : Option PyVal) (context : Option WorkflowContext)
    (dec_retry_policy : Option RetryPolicy) (dec_step_id : Option String)
    (bian_sd : String) (dec_payload : Option PyVal)
    (behavior : Nat → Except ExcKind PyVal) : Except PyError (RunState × RunOutcome) :=
  -- line 238: payload = bound_args.arguments.get('payload')
  let payload := call_payload_arg
  -- lines 242-246
  let effective_retry_policy :=
    _determine_retry_policy dec_retry_policy instance_retry_policy context
  -- line 248: if not context or not context.session
  match context with
  | none =>
      _execute_standalone_workstep effective_retry_policy behavior
        instClass funcName dec_step_id bian_sd payload
  | some ctx =>
      if !ctx.hasSession then
        _execute_standalone_workstep effective_retry_policy behavior
          instClass funcName dec_step_id bian_sd payload
      else
        _execute_workstep_in_workflow effective_retry_policy behavior
          instClass funcName dec_step_id bian_sd payload ctx

/-! ## The workflow runner (`_wrap_workflow_execute`, sync wrapper,
`workflow.py` lines 141-186) -/

/-- The mutable columns of one `workflow_instance` row that the workflow
runner touches. -/
structure WfRec where
  status : WorkflowStatus
  end_time : Option Nat
  error_message : Option ExcKind

/-- State of one workflow `execute` run: the row, the workflow lifecycle
journal, a clock. -/
structure WfRunState where
  wf : WfRec
  journal : List (WorkflowStatus × WorkflowStatus)
  clock : Nat

/-- Embedding of `WorkflowInstance.set_status` (`models.py` lines 113-126) over the
single logical store of a workflow run. -/
def WfRunState.set_status (st : WfRunState) (new_status : WorkflowStatus) : WfRunState :=
  let old_status := st.wf.status
  let st := { st with wf := { st.wf with status := new_status } }
  if old_status ≠ new_status then
    { st with journal := st.journal ++ [(old_status, new_status)] }
  else st

/-- The sync workflow `execute` wrapper (`workflow.py` lines 141-186),
starting from the row that `workflow_defn.new_init` inserted in state
`INSTANTIATED` (lines 58, 66-75).  `execResult` is the outcome of
`execute_method(self, *args, **kwargs)`; its nested workstep calls are
modelled separately by `_execute_with_retry`. -/
def runWorkflowExecute (execResult : Except ExcKind PyVal) : WfRunState × RunOutcome :=
  let st : WfRunState :=
    { wf := { status := .INSTANTIATED, end_time := none, error_message := none },
      journal := [], clock := 0 }
  -- line 157: workflow_instance.set_status(WorkflowStatus.RUNNING)
  let st := st.set_status .RUNNING
  match execResult with
  | .ok result =>
      -- lines 166-168
      let st := st.set_status .COMPLETED
      let st := { st with wf := { st.wf with end_time := some st.clock }, clock := st.clock + 1 }
      (st, .ok result)
  | .error e =>
      -- lines 175-178
      let st := st.set_status .FAILED
      let st := { st with wf := { st.wf with end_time := some st.clock }, clock := st.clock + 1 }
      let st := { st with wf := { st.wf with error_message := some e } }
      (st, .raised e)

/-! ## The two-session persistence model (`models.py` lines 53-58, 113-126,
156-169)

`models.py` builds one module-level `session` at import time; `set_status`
adds the lifecycle row to *that* session and commits it there.  The
instance row itself, however, is attached to a per-call session created in
`workflow.py` (`session = Session()`), so the status-attribute change is
only persisted when that caller session commits.  `OrmState` makes the two
sessions and the committed store explicit; it is generic in the status
type because `WorkflowInstance.set_status` and `WorkStepInstance.set_status`
are textually identical up to the table written. -/

structure OrmState (σ : Type) where
  /-- committed value of the instance row's `status` column -/
  dbStatus : σ
  /-- committed rows of the lifecycle table -/
  dbJournal : List (σ × σ)
  /-- the in-memory `status` attribute of the ORM object (a pending change
  of the caller session once it differs from `dbStatus`) -/
  memStatus : σ
  /-- lifecycle rows `add()`ed to the module-level session, not yet committed -/
  globalPending : List (σ × σ)
deriving Repr

/-- Embedding of `set_status` (`models.py` lines 113-126 / 156-169) over `OrmState`:
read the old status, mutate the attribute, and iff it changed, add one
lifecycle row to the module-level session and commit *that* session
(flushing its pending lifecycle rows into the store).  The caller
session's pending status update is not touched. -/
def OrmState.set_status {σ : Type} [DecidableEq σ] (s : OrmState σ) (new_status : σ) :
    OrmState σ :=
  let old_status := s.memStatus
  let s1 := { s with memStatus := new_status }
  if old_status ≠ new_status then
    { s1 with
      dbJournal := s1.dbJournal ++ s1.globalPending ++ [(old_status, new_status)]
      globalPending := [] }
  else s1

/-- A `session.commit()` on the caller's session (e.g. `workflow.py`
line 387): persists the instance row's in-memory attributes. -/
def OrmState.callerCommit {σ : Type} (s : OrmState σ) : OrmState σ :=
  { s with dbStatus := s.memStatus }

/-- Total number of lifecycle rows written (committed or pending) — what
the journal tables will eventually contain. -/
def OrmState.journalRows {σ : Type} (s : OrmState σ) : Nat :=
  s.dbJournal.length + s.globalPending.length

/-- The committed store is consistent when the journal's newest row leads
to the instance row's committed status. -/
def OrmState.dbConsistent {σ : Type} [DecidableEq σ] (s : OrmState σ) : Bool :=
  match s.dbJournal.getLast? with
  | some e => e.2 = s.dbStatus
  | none => true

/-! ## Derived predicates and result extractors used by the theorems -/

/-- Embedding of `type(exception) in self.exclude_exceptions` guarded by the list's
truthiness — the exclusion test of the base `should_retry`
(`retry_policies.py` line 25). -/
def RetryPolicy.typeExcluded (p : RetryPolicy) (e : ExcKind) : Bool :=
  (!p.exclude_exceptions.isEmpty) && p.exclude_exceptions.any (fun x => x.matchesType e)

/-- Whether the policy value uses the base-class `should_retry`
(every subclass except `ConditionalRetryPolicy`, which overrides it). -/
def RetryPolicy.usesBaseShouldRetry (p : RetryPolicy) : Bool :=
  match p.kind with
  | .conditional _ => false
  | _ => true

/-- The run state of a workstep execution, when it did not crash. -/
def runStateOf (r : Except PyError (RunState × RunOutcome)) : Option RunState :=
  match r with
  | .ok (st, _) => some st
  | .error _ => none

/-- The step-row snapshots taken at the run's `session.commit()` points. -/
def snapshotsOf (r : Except PyError (RunState × RunOutcome)) : List StepRec :=
  match r with
  | .ok (st, _) => st.snapshots
  | .error _ => []

/-- The workstep lifecycle rows journaled by a run. -/
def journalOfRun (r : Except PyError (RunState × RunOutcome)) :
    List (WorkStepStatus × WorkStepStatus) :=
  match r with
  | .ok (st, _) => st.journal
  | .error _ => []

/-- The sleeps performed by a run. -/
def sleepsOf (r : Except PyError (RunState × RunOutcome)) : List Rat :=
  match r with
  | .ok (st, _) => st.sleeps
  | .error _ => []

/-- The number of user-function invocations made by a run. -/
def attemptsMadeOf (r : Except PyError (RunState × RunOutcome)) : Option Nat :=
  match r with
  | .ok (st, _) => some st.attemptsMade
  | .error _ => none

/-- The final step row of a run. -/
def finalStepOf (r : Except PyError (RunState × RunOutcome)) : Option StepRec :=
  match r with
  | .ok (st, _) => some st.step
  | .error _ => none

/-- The outcome (return / re-raise) of a run. -/
def outcomeOf (r : Except PyError (RunState × RunOutcome)) : Option RunOutcome :=
  match r with
  | .ok (_, out) => some out
  | .error _ => none

/-- The only workstep lifecycle edges the runner ever journals. -/
def stepEdgeOK (e : WorkStepStatus × WorkStepStatus) : Bool :=
  decide (e ∈ [((WorkStepStatus.INSTANTIATED), WorkStepStatus.RUNNING),
               (.RUNNING, .COMPLETED), (.RUNNING, .FAILED)])

/-- Holds when `(from_state, to_state)` is an edge of the legal workstep transition
graph (`WorkStepStatus.next_states`). -/
def stepEdgeLegal (e : WorkStepStatus × WorkStepStatus) : Bool :=
  match WorkStepStatus.next_states e.1 with
  | some l => decide (e.2 ∈ l)
  | none => false

/-- The only workflow lifecycle edges the workflow runner ever journals. -/
def wfEdgeOK (e : WorkflowStatus × WorkflowStatus) : Bool :=
  decide (e ∈ [((WorkflowStatus.INSTANTIATED), WorkflowStatus.RUNNING),
               (.RUNNING, .COMPLETED), (.RUNNING, .FAILED)])

/-- Holds when `(from_state, to_state)` is an edge of the legal workflow transition
graph (`WorkflowStatus.next_states`). -/
def wfEdgeLegal (e : WorkflowStatus × WorkflowStatus) : Bool :=
  match WorkflowStatus.next_states e.1 with
  | some l => decide (e.2 ∈ l)
  | none => false

/-- Follows the spec's words only (§4.4 step 1), for the refinement
comparison of claim C7: "(a) explicit per-workstep policy; (b)
instance-level policy attribute on the receiver; (c) ambient workflow
context's policy; (d) a default Linear policy". -/
def specPolicyResolution (explicitStepPolicy instanceLevelPolicy : Option RetryPolicy)
    (ambient : Option WorkflowContext) : RetryPolicy :=
  ((explicitStepPolicy.orElse fun _ =>
      instanceLevelPolicy.orElse fun _ =>
        ambient.bind fun c => c.workflow_retry_policy)).getD LinearRetryPolicy.make

/-- A freshly inserted and committed workstep row in state `INSTANTIATED`,
with both sessions clean — the persisted situation right after
`workflow.py` line 373 and before the first `set_status`. -/
def freshOrmState : OrmState WorkStepStatus :=
  { dbStatus := .INSTANTIATED
    dbJournal := []
    memStatus := .INSTANTIATED
    globalPending := [] }

/-- The concrete run refuting the `end_time` invariant of claim C4: a
`LinearRetryPolicy(max_retries=1, base_delay=1)` workstep whose user
function raises `ConnectionError` on every attempt, run inside a
workflow. -/
def claim4Run : Except PyError (RunState × RunOutcome) :=
  _execute_with_retry (some { id := 7 }) (LinearRetryPolicy.make 1 1 none)
    (fun _ => .error .ConnectionError) "step" "func" "BIAN" none

/-! ## Helper lemmas about the run-state primitives -/

theorem set_status_eq (st : RunState) (v : WorkStepStatus) :
    st.set_status v =
      { st with
        step := { st.step with status := v }
        journal := st.journal ++
          (if st.step.status = v then [] else [(st.step.status, v)]) } := by
  unfold RunState.set_status
  by_cases h : st.step.status = v <;> simp [h]

/-- Exact result of one loop iteration whose user call succeeds
(`workflow.py` lines 381-402). -/
theorem runAttemptBody_ok (p : RetryPolicy) (b : Nat → Except ExcKind PyVal)
    (a : Nat) (st : RunState) (v : PyVal) (hb : b a = .ok v) :
    runAttemptBody p b a st = .done
      { step := { st.step with
          attempt_number := a
          status := .COMPLETED
          start_time := some st.clock
          end_time := some (st.clock + 1)
          result_data := some (PyVal.dumps (_serialize_result v)) }
        journal := st.journal ++
            (if st.step.status = .RUNNING then [] else [(st.step.status, .RUNNING)]) ++
            [(.RUNNING, .COMPLETED)]
        sleeps := st.sleeps
        attemptsMade := st.attemptsMade + 1
        snapshots := st.snapshots ++
            [{ st.step with
               attempt_number := a
               status := .RUNNING
               start_time := some st.clock }] ++
            [{ st.step with
               attempt_number := a
               status := .COMPLETED
               start_time := some st.clock
               end_time := some (st.clock + 1)
               result_data := some (PyVal.dumps (_serialize_result v)) }]
        clock := st.clock + 1 + 1 }
      (.ok v) := by
  unfold runAttemptBody
  rw [hb]
  by_cases h : st.step.status = .RUNNING <;>
    simp [RunState.set_status, RunState.now, RunState.commit, h]

/-- Exact result of one loop iteration whose user call raises and which
retries (`workflow.py` lines 381-417): note `end_time` is written before
the retry decision, and the `set_status(RUNNING)` at line 412 is a
self-transition, so no lifecycle row is journaled for it. -/
theorem runAttemptBody_error_retry (p : RetryPolicy) (b : Nat → Except ExcKind PyVal)
    (a : Nat) (st : RunState) (e : ExcKind) (hb : b a = .error e)
    (hc : (p.should_retry a e && decide (a ≤ p.max_retries)) = true) :
    runAttemptBody p b a st = .retry
      { step := { st.step with
          attempt_number := a
          status := .RUNNING
          start_time := some st.clock
          end_time := some (st.clock + 1)
          error_message := some e }
        journal := st.journal ++
            (if st.step.status = .RUNNING then [] else [(st.step.status, .RUNNING)])
        sleeps := st.sleeps ++ [p.get_delay a]
        attemptsMade := st.attemptsMade + 1
        snapshots := st.snapshots ++
            [{ st.step with
               attempt_number := a
               status := .RUNNING
               start_time := some st.clock }] ++
            [{ st.step with
               attempt_number := a
               status := .RUNNING
               start_time := some st.clock
               end_time := some (st.clock + 1)
               error_message := some e }]
        clock := st.clock + 1 + 1 }
      e := by
  unfold runAttemptBody
  rw [hb]
  by_cases h : st.step.status = .RUNNING <;>
    simp [RunState.set_status, RunState.now, RunState.commit, h, hc]

/-- Exact result of one loop iteration whose user call raises and which
does not retry (`workflow.py` lines 381-407, 418-423). -/
theorem runAttemptBody_error_done (p : RetryPolicy) (b : Nat → Except ExcKind PyVal)
    (a : Nat) (st : RunState) (e : ExcKind) (hb : b a = .error e)
    (hc : (p.should_retry a e && decide (a ≤ p.max_retries)) = false) :
    runAttemptBody p b a st = .done
      { step := { st.step with
          attempt_number := a
          status := .FAILED
          start_time := some st.clock
          end_time := some (st.clock + 1)
          error_message := some e }
        journal := st.journal ++
            (if st.step.status = .RUNNING then [] else [(st.step.status, .RUNNING)]) ++
            [(.RUNNING, .FAILED)]
        sleeps := st.sleeps
        attemptsMade := st.attemptsMade + 1
        snapshots := st.snapshots ++
            [{ st.step with
               attempt_number := a
               status := .RUNNING
               start_time := some st.clock }] ++
            [{ st.step with
               attempt_number := a
               status := .FAILED
               start_time := some st.clock
               end_time := some (st.clock + 1)
               error_message := some e }]
        clock := st.clock + 1 + 1 }
      (.raised e) := by
  unfold runAttemptBody
  rw [hb]
  by_cases h : st.step.status = .RUNNING <;>
    simp [RunState.set_status, RunState.now, RunState.commit, h, hc]

/-- Exact result of the unreachable fall-through after the `while` loop
(`workflow.py` lines 425-428). -/
theorem whileExit_eq (st : RunState) (lastExc : Option ExcKind) :
    whileExit st lastExc =
      ({ st with
         step := { st.step with status := .FAILED }
         journal := st.journal ++
           (if st.step.status = .FAILED then [] else [(st.step.status, .FAILED)])
         snapshots := st.snapshots ++ [{ st.step with status := .FAILED }] },
       match lastExc with
       | some e => .raised e
       | none => .raisedNone) := by
  unfold whileExit
  by_cases h : st.step.status = .FAILED <;>
    simp [RunState.set_status, RunState.commit, h]

/-- Convenient unfolding of the non-crashing case of `_execute_with_retry`. -/
theorem _execute_with_retry_some_eq (w : WorkflowRowRef) (p : RetryPolicy)
    (b : Nat → Except ExcKind PyVal) (sid fn bsd : String) (payload : Option PyVal) :
    _execute_with_retry (some w) p b sid fn bsd payload =
      .ok (execLoopFuel p b (p.max_retries + 1) 1 none
        { step := initStepRec w p sid fn bsd payload
          journal := []
          sleeps := []
          attemptsMade := 0
          snapshots := [initStepRec w p sid fn bsd payload]
          clock := 0 }) := rfl

/-- The base-class `should_retry` on a policy that does not override it and
an error kind that the (broken) exclusion test does not match: it is just
the attempt bound. -/
theorem should_retry_base (p : RetryPolicy) (hbase : p.usesBaseShouldRetry = true)
    (a : Nat) (e : ExcKind) (hexc : p.typeExcluded e = false) :
    p.should_retry a e = decide (a ≤ p.max_retries) := by
  unfold RetryPolicy.should_retry
  unfold RetryPolicy.usesBaseShouldRetry at hbase
  unfold RetryPolicy.typeExcluded at hexc
  cases hk : p.kind <;> simp_all
  all_goals exact fun _ => (Decidable.em (p.exclude_exceptions = [])).imp id hexc

/-- Embedding of `ValueError` is always on the exclusion list built by the base
constructor, so the base `should_retry` test matches it. -/
theorem typeExcluded_valueError (kind : PolicyKind) (maxr : Nat) (bd : Rat)
    (excl : Option (List ExcKind)) :
    (RetryPolicy.init_base kind maxr bd excl).typeExcluded .ValueError = true := by
  unfold RetryPolicy.typeExcluded RetryPolicy.init_base
  simp [ExcludeEntry.matchesType]

/-- Any linear policy refuses to retry a `ValueError`. -/
theorem linear_should_retry_valueError (maxr : Nat) (bd : Rat)
    (excl : Option (List ExcKind)) (a : Nat) :
    (LinearRetryPolicy.make maxr bd excl).should_retry a .ValueError = false := by
  unfold LinearRetryPolicy.make RetryPolicy.should_retry RetryPolicy.init_base
  simp [ExcludeEntry.matchesType]

/-! ## Loop invariants of `execLoopFuel` -/

/-- The retry loop never changes `payload_data` after row creation. -/
theorem execLoopFuel_payload (p : RetryPolicy) (b : Nat → Except ExcKind PyVal) :
    ∀ (fuel a : Nat) (l : Option ExcKind) (st : RunState),
      (execLoopFuel p b fuel a l st).1.step.payload_data = st.step.payload_data := by
  intro fuel
  induction fuel with
  | zero =>
      intro a l st
      rw [show execLoopFuel p b 0 a l st = whileExit st l from rfl, whileExit_eq]
  | succ n ih =>
      intro a l st
      by_cases ha : a ≤ p.max_retries + 1
      · rw [show execLoopFuel p b (n + 1) a l st =
            (match runAttemptBody p b a st with
              | .done st out => (st, out)
              | .retry st e => execLoopFuel p b n (a + 1) (some e) st) by
            simp [execLoopFuel, ha]]
        cases hb : b a with
        | ok v => rw [runAttemptBody_ok p b a st v hb]
        | error e =>
            cases hc : (p.should_retry a e && decide (a ≤ p.max_retries)) with
            | true =>
                rw [runAttemptBody_error_retry p b a st e hb hc]
                rw [ih]
            | false =>
                rw [runAttemptBody_error_done p b a st e hb hc]
      · rw [show execLoopFuel p b (n + 1) a l st = whileExit st l by
            simp [execLoopFuel, ha], whileExit_eq]

/-- Journal invariant of the retry loop: starting from a `RUNNING` row (or
an `INSTANTIATED` row about to execute its first attempt), every lifecycle
row the loop appends is one of the three engine edges. -/
theorem execLoopFuel_journal_all (p : RetryPolicy) (b : Nat → Except ExcKind PyVal) :
    ∀ (fuel a : Nat) (l : Option ExcKind) (st : RunState),
      (st.step.status = .RUNNING ∨
        (st.step.status = .INSTANTIATED ∧ 1 ≤ fuel ∧ a ≤ p.max_retries + 1)) →
      st.journal.all stepEdgeOK = true →
      (execLoopFuel p b fuel a l st).1.journal.all stepEdgeOK = true := by
  intro fuel
  induction fuel with
  | zero =>
      intro a l st hst hj
      rcases hst with h | ⟨_, hf, _⟩
      · rw [show execLoopFuel p b 0 a l st = whileExit st l from rfl, whileExit_eq]
        simp only [List.all_append, Bool.and_eq_true, h]
        refine ⟨hj, ?_⟩
        decide
      · omega
  | succ n ih =>
      intro a l st hst hj
      by_cases ha : a ≤ p.max_retries + 1
      · rw [show execLoopFuel p b (n + 1) a l st =
            (match runAttemptBody p b a st with
              | .done st out => (st, out)
              | .retry st e => execLoopFuel p b n (a + 1) (some e) st) by
            simp [execLoopFuel, ha]]
        have hdelta : (st.journal ++
            (if st.step.status = WorkStepStatus.RUNNING then []
             else [(st.step.status, WorkStepStatus.RUNNING)])).all
              stepEdgeOK = true := by
          rcases hst with h | ⟨h, _, _⟩ <;>
            simp only [List.all_append, Bool.and_eq_true, h] <;>
            refine ⟨hj, ?_⟩ <;> decide
        cases hb : b a with
        | ok v =>
            rw [runAttemptBody_ok p b a st v hb]
            simp only [List.all_append, Bool.and_eq_true] at hdelta ⊢
            refine ⟨hdelta, ?_⟩
            decide
        | error e =>
            cases hc : (p.should_retry a e && decide (a ≤ p.max_retries)) with
            | true =>
                rw [runAttemptBody_error_retry p b a st e hb hc]
                exact ih (a + 1) (some e) _ (Or.inl rfl) hdelta
            | false =>
                rw [runAttemptBody_error_done p b a st e hb hc]
                simp only [List.all_append, Bool.and_eq_true] at hdelta ⊢
                refine ⟨hdelta, ?_⟩
                decide
      · rcases hst with h | ⟨_, _, ha2⟩
        · rw [show execLoopFuel p b (n + 1) a l st = whileExit st l by
              simp [execLoopFuel, ha], whileExit_eq]
          simp only [List.all_append, Bool.and_eq_true, h]
          refine ⟨hj, ?_⟩
          decide
        · exact absurd ha2 ha

/-- Exhaustion invariant of the retry loop: when the user function raises a
non-excluded error on every attempt (under a policy that keeps the base
`should_retry`), the loop runs attempts `a, a+1, …, max_retries+1`, sleeps
once per non-final attempt with the policy's delay, ends `FAILED` with
`attempt_number = max_retries + 1`, and re-raises the last error. -/
theorem execLoopFuel_all_fail (p : RetryPolicy) (b : Nat → Except ExcKind PyVal)
    (err : Nat → ExcKind) (hbase : p.usesBaseShouldRetry = true)
    (hb : ∀ a, b a = .error (err a)) (hex : ∀ a, p.typeExcluded (err a) = false) :
    ∀ (fuel a : Nat) (l : Option ExcKind) (st : RunState),
      fuel = p.max_retries + 2 - a → 1 ≤ a → a ≤ p.max_retries + 1 →
      (execLoopFuel p b fuel a l st).1.step.status = .FAILED ∧
      (execLoopFuel p b fuel a l st).1.step.attempt_number = p.max_retries + 1 ∧
      (execLoopFuel p b fuel a l st).1.attemptsMade
        = st.attemptsMade + (p.max_retries + 2 - a) ∧
      (execLoopFuel p b fuel a l st).1.sleeps
        = st.sleeps ++ (List.range' a (p.max_retries + 1 - a)).map (fun i => p.get_delay i) ∧
      (execLoopFuel p b fuel a l st).2 = .raised (err (p.max_retries + 1)) := by
  intro fuel
  induction fuel with
  | zero =>
      intro a l st hfuel h1 h2
      omega
  | succ n ih =>
      intro a l st hfuel h1 h2
      have hsr : p.should_retry a (err a) = decide (a ≤ p.max_retries) :=
        should_retry_base p hbase a (err a) (hex a)
      rw [show execLoopFuel p b (n + 1) a l st =
          (match runAttemptBody p b a st with
            | .done st out => (st, out)
            | .retry st e => execLoopFuel p b n (a + 1) (some e) st) by
          simp [execLoopFuel, h2]]
      by_cases han : a ≤ p.max_retries
      · have hc : (p.should_retry a (err a) && decide (a ≤ p.max_retries)) = true := by
          simp [hsr, han]
        rw [runAttemptBody_error_retry p b a st (err a) (hb a) hc]
        obtain ⟨s1, s2, s3, s4, s5⟩ :=
          ih (a + 1) (some (err a)) _ (by omega) (by omega) (by omega)
        refine ⟨s1, s2, ?_, ?_, s5⟩
        · rw [s3]
          dsimp only
          omega
        · rw [s4]
          dsimp only
          rw [show p.max_retries + 1 - a = (p.max_retries - a) + 1 by omega,
              List.range'_succ a (p.max_retries - a) 1]
          simp [List.append_assoc]
      · have ha_eq : a = p.max_retries + 1 := by omega
        have hc : (p.should_retry a (err a) && decide (a ≤ p.max_retries)) = false := by
          simp [hsr, han]
        rw [runAttemptBody_error_done p b a st (err a) (hb a) hc]
        refine ⟨rfl, ?_, ?_, ?_, ?_⟩
        · dsimp only
          omega
        · dsimp only
          omega
        · dsimp only
          rw [show p.max_retries + 1 - a = 0 by omega]
          simp
        · dsimp only
          rw [ha_eq]

/-! ## The claims -/

/-- C1 (code bug).  The claim says `should_retry` returns false whenever
the raised error's exact kind is `ValueError` *or any kind the user put in
the exclusion list*.  Evaluating the embedded code at the failing input:
a `LinearRetryPolicy(max_retries=3, exclude_exceptions=[KeyError])` still
*retries* a `KeyError` at attempt 1 (first conjunct), because the base
constructor `append`s the user's list as a single element — the stored
list is `[ValueError, [KeyError]]` (second conjunct) and the exact-type
membership test never matches a list.  The `ValueError` half and the
attempt bound behave as claimed (remaining conjuncts). -/
theorem claim1_user_exclusions_ignored :
    (LinearRetryPolicy.make 3 1 (some [.KeyError])).should_retry 1 .KeyError = true ∧
    (LinearRetryPolicy.make 3 1 (some [.KeyError])).exclude_exceptions
      = [.cls .ValueError, .clsList [.KeyError]] ∧
    (LinearRetryPolicy.make 3 1 (some [.KeyError])).should_retry 1 .ValueError = false ∧
    (LinearRetryPolicy.make 3 1 (some [.KeyError])).should_retry 3 .ConnectionError = true ∧
    (LinearRetryPolicy.make 3 1 (some [.KeyError])).should_retry 4 .ConnectionError = false := by
  refine ⟨rfl, rfl, rfl, rfl, rfl⟩

/-- C2 (code bug).  The claim says a workstep invoked with no ambient
workflow context succeeds, inserting a row with a null workflow reference
and returning the user function's result.  Instead, *every* standalone
execution — for any policy, behavior, names or payload, even a user
function that immediately succeeds — raises `AttributeError`
(`workflow_instance.id` on `None`, `workflow.py` line 362) before any row
is inserted. -/
theorem claim2_standalone_always_crashes (p : RetryPolicy)
    (b : Nat → Except ExcKind PyVal) (instClass funcName : String)
    (step_id : Option String) (bian_sd : String) (payload : Option PyVal) :
    _execute_standalone_workstep p b instClass funcName step_id bian_sd payload
      = .error .attributeErrorNoneId := rfl

/-- C3 (counterexample).  The claim says every status mutation commits the
lifecycle insert and the instance-row update together, as one transaction
on one session, so that no commit leaves the journal inconsistent with the
instance row.  Concretely refuted: starting from a freshly committed
`INSTANTIATED` workstep row, `set_status(RUNNING)` commits the lifecycle
row `INSTANTIATED→RUNNING` on the module-level session while the committed
status column still reads `INSTANTIATED` — the commit inside `set_status`
leaves the store inconsistent. -/
theorem claim3_not_one_transaction :
    (freshOrmState.set_status .RUNNING).dbJournal
      = [(.INSTANTIATED, .RUNNING)] ∧
    (freshOrmState.set_status .RUNNING).dbStatus = .INSTANTIATED ∧
    (freshOrmState.set_status .RUNNING).dbConsistent = false := by
  refine ⟨rfl, rfl, rfl⟩

/-- C3 (amended).  What the code actually does: `set_status` journals the
lifecycle row and commits it on the module-level session inside the call,
while the instance row's status update stays a pending change of the
caller's separate session — it is persisted only by the caller's next
commit.  Between the two commits the journal shows the transition but the
persisted status is still the old one. -/
theorem claim3_two_sessions_two_commits {σ : Type} [DecidableEq σ]
    (s : OrmState σ) (v : σ) (hsync : s.dbStatus = s.memStatus)
    (hchange : s.memStatus ≠ v) :
    (s.set_status v).dbJournal = s.dbJournal ++ s.globalPending ++ [(s.memStatus, v)] ∧
    (s.set_status v).globalPending = [] ∧
    (s.set_status v).dbStatus = s.dbStatus ∧
    (s.set_status v).memStatus = v ∧
    ((s.set_status v).callerCommit).dbStatus = v := by
  unfold OrmState.set_status OrmState.callerCommit
  simp [hchange]

/-- Witness for `claim3_two_sessions_two_commits` at the concrete
counterexample state. -/
theorem claim3_two_sessions_two_commits_witness :
    freshOrmState.dbStatus = freshOrmState.memStatus ∧
    freshOrmState.memStatus ≠ WorkStepStatus.RUNNING ∧
    ((freshOrmState.set_status .RUNNING).dbJournal
        = freshOrmState.dbJournal ++ freshOrmState.globalPending
            ++ [(freshOrmState.memStatus, .RUNNING)] ∧
      (freshOrmState.set_status .RUNNING).globalPending = [] ∧
      (freshOrmState.set_status .RUNNING).dbStatus = freshOrmState.dbStatus ∧
      (freshOrmState.set_status .RUNNING).memStatus = .RUNNING ∧
      ((freshOrmState.set_status .RUNNING).callerCommit).dbStatus = .RUNNING) :=
  ⟨rfl, by decide, claim3_two_sessions_two_commits freshOrmState .RUNNING rfl (by decide)⟩

/-- C7 (confirmed).  `_determine_retry_policy` implements exactly the
four-level precedence stated by the spec: explicit per-workstep policy,
else the receiver's non-null `retry_policy` attribute, else the ambient
context's policy when a context carrying one exists, else a default
`LinearRetryPolicy`. -/
theorem claim7_policy_precedence (step_policy instance_policy : Option RetryPolicy)
    (ctx : Option WorkflowContext) :
    _determine_retry_policy step_policy instance_policy ctx
      = specPolicyResolution step_policy instance_policy ctx := by
  cases step_policy with
  | some p => rfl
  | none =>
      cases instance_policy with
      | some p => rfl
      | none =>
          cases ctx with
          | none => rfl
          | some c =>
              cases hc : c.workflow_retry_policy <;>
                simp [_determine_retry_policy, specPolicyResolution, hc]

/-- C8 (confirmed).  One `set_status` call writes exactly one lifecycle
row iff the new status differs from the current one (first conjunct), and
a second call with the same status is a journal no-op, so two successive
identical sets produce exactly one entry (second and third conjuncts).
Stated over the generic session model, covering both
`WorkflowInstance.set_status` and `WorkStepInstance.set_status`, whose
code is identical up to the table written. -/
theorem claim8_one_lifecycle_row_iff_change {σ : Type} [DecidableEq σ]
    (s : OrmState σ) (v : σ) :
    (s.set_status v).journalRows
      = s.journalRows + (if s.memStatus = v then 0 else 1) ∧
    ((s.set_status v).set_status v).journalRows = (s.set_status v).journalRows ∧
    ((s.set_status v).set_status v).journalRows
      = s.journalRows + (if s.memStatus = v then 0 else 1) := by
  unfold OrmState.set_status OrmState.journalRows
  by_cases h : s.memStatus = v <;> simp [h] <;> omega

/-- Unfolding of one `while`-loop iteration when the loop condition holds. -/
theorem execLoopFuel_step (p : RetryPolicy) (b : Nat → Except ExcKind PyVal)
    (n a : Nat) (l : Option ExcKind) (st : RunState) (ha : a ≤ p.max_retries + 1) :
    execLoopFuel p b (n + 1) a l st =
      (match runAttemptBody p b a st with
        | .done st out => (st, out)
        | .retry st e => execLoopFuel p b n (a + 1) (some e) st) := by
  simp [execLoopFuel, ha]

/-- C4 (code bug).  The claim (and the `end_time` column's own comment in
`models.py`) says `end_time` is set iff the state is terminal, and in
particular a `RUNNING` row awaiting a retry has no `end_time`.  Evaluating
the code at the failing input — `LinearRetryPolicy(max_retries=1)` with a
user function raising `ConnectionError` on every attempt — the committed
snapshots include rows in state `RUNNING` with `end_time` set: the except
branch writes `end_time` on *every* failed attempt before deciding to
retry (and never clears it), and the third commit of the run (right after
the first failed attempt, while awaiting the retry) persists
`status = RUNNING` with `end_time` set. -/
theorem claim4_end_time_set_while_running :
    ((snapshotsOf claim4Run).any
        (fun r => r.status == WorkStepStatus.RUNNING && r.end_time.isSome)) = true ∧
    ((snapshotsOf claim4Run)[2]?).map (fun r => (r.status, r.end_time))
      = some (.RUNNING, some 1) ∧
    (finalStepOf claim4Run).map (fun r => r.status) = some .FAILED := by
  refine ⟨rfl, rfl, rfl⟩

/-- C5 (confirmed).  Under any policy that keeps the base `should_retry`
and has `max_retries = n`, a workstep whose user function raises a
non-excluded error on every attempt performs exactly `n + 1` user-function
calls, sleeps the policy delay for attempts `1..n` (one delay after each
non-final attempt), leaves the row with `attempt_number = n + 1` in status
`FAILED`, and re-raises the last observed error. -/
theorem claim5_exhaustion (p : RetryPolicy) (b : Nat → Except ExcKind PyVal)
    (err : Nat → ExcKind) (w : WorkflowRowRef) (sid fn bsd : String)
    (payload : Option PyVal) (hbase : p.usesBaseShouldRetry = true)
    (hb : ∀ a, b a = .error (err a)) (hex : ∀ a, p.typeExcluded (err a) = false) :
    attemptsMadeOf (_execute_with_retry (some w) p b sid fn bsd payload)
      = some (p.max_retries + 1) ∧
    (finalStepOf (_execute_with_retry (some w) p b sid fn bsd payload)).map
        (fun r => r.attempt_number) = some (p.max_retries + 1) ∧
    (finalStepOf (_execute_with_retry (some w) p b sid fn bsd payload)).map
        (fun r => r.status) = some .FAILED ∧
    sleepsOf (_execute_with_retry (some w) p b sid fn bsd payload)
      = (List.range' 1 p.max_retries).map (fun i => p.get_delay i) ∧
    outcomeOf (_execute_with_retry (some w) p b sid fn bsd payload)
      = some (.raised (err (p.max_retries + 1))) := by
  obtain ⟨s1, s2, s3, s4, s5⟩ := execLoopFuel_all_fail p b err hbase hb hex
    (p.max_retries + 1) 1 none
    { step := initStepRec w p sid fn bsd payload
      journal := []
      sleeps := []
      attemptsMade := 0
      snapshots := [initStepRec w p sid fn bsd payload]
      clock := 0 }
    (by omega) (by omega) (by omega)
  rw [_execute_with_retry_some_eq]
  refine ⟨?_, ?_, ?_, ?_, ?_⟩
  · simp only [attemptsMadeOf]
    rw [s3]
    simp only [Option.some.injEq]
    omega
  · simp only [finalStepOf, Option.map]
    rw [s2]
  · simp only [finalStepOf, Option.map]
    rw [s1]
  · simp only [sleepsOf]
    rw [s4]
    simp
  · simp only [outcomeOf]
    rw [s5]

/-- Witness for `claim5_exhaustion`: the spec's own exhaustion scenario,
`ExponentialRetryPolicy(max_retries=2, base_delay=0.1, max_delay=1.0)`
with a user function always raising `ConnectionError`: three attempts,
delays `0.1` then `0.2`, final status `FAILED`, the error re-raised. -/
theorem claim5_exhaustion_witness :
    (ExponentialRetryPolicy.make 2 (1/10) 1 none).usesBaseShouldRetry = true ∧
    attemptsMadeOf (_execute_with_retry (some ⟨7⟩) (ExponentialRetryPolicy.make 2 (1/10) 1 none)
      (fun _ => .error .ConnectionError) "step" "func" "BIAN" none) = some 3 ∧
    (finalStepOf (_execute_with_retry (some ⟨7⟩) (ExponentialRetryPolicy.make 2 (1/10) 1 none)
      (fun _ => .error .ConnectionError) "step" "func" "BIAN" none)).map
        (fun r => r.attempt_number) = some 3 ∧
    (finalStepOf (_execute_with_retry (some ⟨7⟩) (ExponentialRetryPolicy.make 2 (1/10) 1 none)
      (fun _ => .error .ConnectionError) "step" "func" "BIAN" none)).map
        (fun r => r.status) = some .FAILED ∧
    sleepsOf (_execute_with_retry (some ⟨7⟩) (ExponentialRetryPolicy.make 2 (1/10) 1 none)
      (fun _ => .error .ConnectionError) "step" "func" "BIAN" none) = [1/10, 1/5] ∧
    outcomeOf (_execute_with_retry (some ⟨7⟩) (ExponentialRetryPolicy.make 2 (1/10) 1 none)
      (fun _ => .error .ConnectionError) "step" "func" "BIAN" none)
      = some (.raised .ConnectionError) := by
  have h := claim5_exhaustion (ExponentialRetryPolicy.make 2 (1/10) 1 none)
    (fun _ => .error .ConnectionError) (fun _ => .ConnectionError) ⟨7⟩ "step" "func" "BIAN"
    none rfl (fun _ => rfl) (fun _ => rfl)
  refine ⟨rfl, h.1, h.2.1, h.2.2.1, ?_, h.2.2.2.2⟩
  rw [h.2.2.2.1,
    show List.range' 1 (ExponentialRetryPolicy.make 2 (1/10) 1 none).max_retries = [1, 2]
      from rfl]
  simp [RetryPolicy.get_delay, ExponentialRetryPolicy.make, RetryPolicy.init_base]
  norm_num [min_def]

/-- C6 (confirmed).  Under any `LinearRetryPolicy`, a user function that
raises `ValueError` (the always-excluded bad-input kind) on attempt 1
causes exactly one user-function call, no sleep, a final row with
`attempt_number = 1` and status `FAILED`, a journal of exactly
`INSTANTIATED→RUNNING, RUNNING→FAILED` (hence exactly one edge to
`FAILED`), and the error re-raised. -/
theorem claim6_excluded_error_fails_fast (maxr : Nat) (bd : Rat)
    (excl : Option (List ExcKind)) (w : WorkflowRowRef) (sid fn bsd : String)
    (payload : Option PyVal) (b : Nat → Except ExcKind PyVal)
    (hb : b 1 = .error .ValueError) :
    attemptsMadeOf (_execute_with_retry (some w) (LinearRetryPolicy.make maxr bd excl)
      b sid fn bsd payload) = some 1 ∧
    (finalStepOf (_execute_with_retry (some w) (LinearRetryPolicy.make maxr bd excl)
      b sid fn bsd payload)).map (fun r => r.attempt_number) = some 1 ∧
    (finalStepOf (_execute_with_retry (some w) (LinearRetryPolicy.make maxr bd excl)
      b sid fn bsd payload)).map (fun r => r.status) = some .FAILED ∧
    sleepsOf (_execute_with_retry (some w) (LinearRetryPolicy.make maxr bd excl)
      b sid fn bsd payload) = [] ∧
    journalOfRun (_execute_with_retry (some w) (LinearRetryPolicy.make maxr bd excl)
      b sid fn bsd payload) = [(.INSTANTIATED, .RUNNING), (.RUNNING, .FAILED)] ∧
    ((journalOfRun (_execute_with_retry (some w) (LinearRetryPolicy.make maxr bd excl)
      b sid fn bsd payload)).filter (fun e => e.2 == WorkStepStatus.FAILED)).length = 1 ∧
    outcomeOf (_execute_with_retry (some w) (LinearRetryPolicy.make maxr bd excl)
      b sid fn bsd payload) = some (.raised .ValueError) := by
  rw [_execute_with_retry_some_eq]
  have hc : ((LinearRetryPolicy.make maxr bd excl).should_retry 1 .ValueError &&
      decide (1 ≤ (LinearRetryPolicy.make maxr bd excl).max_retries)) = false := by
    rw [linear_should_retry_valueError]
    rfl
  rw [execLoopFuel_step (LinearRetryPolicy.make maxr bd excl) b
    ((LinearRetryPolicy.make maxr bd excl).max_retries) 1 none _ (by omega)]
  rw [runAttemptBody_error_done (LinearRetryPolicy.make maxr bd excl) b 1 _ .ValueError hb hc]
  refine ⟨rfl, rfl, rfl, rfl, rfl, rfl, rfl⟩

/-- Witness for `claim6_excluded_error_fails_fast`: the spec's scenario 3,
`LinearRetryPolicy(max_retries=5)` with a user function raising
`ValueError` on attempt 1. -/
theorem claim6_excluded_error_fails_fast_witness :
    ((fun _ => .error .ValueError : Nat → Except ExcKind PyVal) 1
        = .error .ValueError) ∧
    attemptsMadeOf (_execute_with_retry (some ⟨7⟩) (LinearRetryPolicy.make 5 1 none)
      (fun _ => .error .ValueError) "step" "func" "BIAN" none) = some 1 ∧
    (finalStepOf (_execute_with_retry (some ⟨7⟩) (LinearRetryPolicy.make 5 1 none)
      (fun _ => .error .ValueError) "step" "func" "BIAN" none)).map
        (fun r => r.status) = some .FAILED ∧
    sleepsOf (_execute_with_retry (some ⟨7⟩) (LinearRetryPolicy.make 5 1 none)
      (fun _ => .error .ValueError) "step" "func" "BIAN" none) = [] ∧
    journalOfRun (_execute_with_retry (some ⟨7⟩) (LinearRetryPolicy.make 5 1 none)
      (fun _ => .error .ValueError) "step" "func" "BIAN" none)
      = [(.INSTANTIATED, .RUNNING), (.RUNNING, .FAILED)] ∧
    outcomeOf (_execute_with_retry (some ⟨7⟩) (LinearRetryPolicy.make 5 1 none)
      (fun _ => .error .ValueError) "step" "func" "BIAN" none)
      = some (.raised .ValueError) := by
  have h := claim6_excluded_error_fails_fast 5 1 none ⟨7⟩ "step" "func" "BIAN" none
    (fun _ => .error .ValueError) rfl
  exact ⟨rfl, h.1, h.2.2.1, h.2.2.2.1, h.2.2.2.2.1, h.2.2.2.2.2.2⟩

/-- C9 (confirmed).  Every lifecycle row journaled by the workstep runner
or the workflow runner is one of `INSTANTIATED→RUNNING`,
`RUNNING→COMPLETED`, `RUNNING→FAILED`; each is an edge of the legal
transition graph (`next_states`), and none is a self-transition — in
particular the `RUNNING→RUNNING` between retry attempts is never
journaled. -/
theorem claim9_only_legal_edges_journaled (wf : Option WorkflowRowRef)
    (p : RetryPolicy) (b : Nat → Except ExcKind PyVal) (sid fn bsd : String)
    (payload : Option PyVal) (execRes : Except ExcKind PyVal) :
    ((journalOfRun (_execute_with_retry wf p b sid fn bsd payload)).all
        (fun e => stepEdgeOK e && stepEdgeLegal e && !(e.1 == e.2)) = true) ∧
    ((runWorkflowExecute execRes).1.journal.all
        (fun e => wfEdgeOK e && wfEdgeLegal e && !(e.1 == e.2)) = true) := by
  constructor
  · cases wf with
    | none => rfl
    | some w =>
        rw [_execute_with_retry_some_eq]
        have hall := execLoopFuel_journal_all p b (p.max_retries + 1) 1 none
          { step := initStepRec w p sid fn bsd payload
            journal := []
            sleeps := []
            attemptsMade := 0
            snapshots := [initStepRec w p sid fn bsd payload]
            clock := 0 }
          (Or.inr ⟨rfl, by omega, by omega⟩) rfl
        simp only [journalOfRun]
        rw [List.all_eq_true] at hall ⊢
        intro e he
        have h1 := hall e he
        have h2 : e = (WorkStepStatus.INSTANTIATED, WorkStepStatus.RUNNING) ∨
            e = (.RUNNING, .COMPLETED) ∨ e = (.RUNNING, .FAILED) := by
          simpa [stepEdgeOK] using h1
        rcases h2 with h | h | h <;> subst h <;> decide
  · cases execRes <;> rfl

/-- C10 (confirmed).  For every workstep call that records a row (i.e. the
in-workflow path — the standalone path crashes before inserting one, see
C2), the stored `payload_data` is the JSON encoding of the call-time
argument bound to the parameter named `payload` when that value is truthy,
and of the empty object when the parameter is absent or its value is
null/falsy; and the decoration-time `payload` option of `workstep_defn`
never affects the result (the wrapper rebinds `payload` before use). -/
theorem claim10_payload_from_call_argument (instClass : String)
    (instPol : Option RetryPolicy) (fn : String) (callPayload : Option PyVal)
    (c : WorkflowContext) (w : WorkflowRowRef) (decPol : Option RetryPolicy)
    (decSid : Option String) (bsd : String) (decPayload decPayload2 : Option PyVal)
    (b : Nat → Except ExcKind PyVal) (hs : c.hasSession = true)
    (hw : c.workflow_instance = some w) :
    ((finalStepOf (_execute_workstep_wrapper instClass instPol fn callPayload (some c)
        decPol decSid bsd decPayload b)).map (fun r => r.payload_data)
      = some (PyVal.dumps (payloadOrEmpty callPayload))) ∧
    _execute_workstep_wrapper instClass instPol fn callPayload (some c)
        decPol decSid bsd decPayload b
      = _execute_workstep_wrapper instClass instPol fn callPayload (some c)
        decPol decSid bsd decPayload2 b := by
  constructor
  · unfold _execute_workstep_wrapper _execute_workstep_in_workflow
    dsimp only
    rw [hs]
    simp only [Bool.not_true, Bool.false_eq_true, if_false]
    rw [hw, _execute_with_retry_some_eq]
    simp only [finalStepOf, Option.map]
    rw [execLoopFuel_payload]
    rfl
  · rfl

/-- Witness for `claim10_payload_from_call_argument`: a call-time payload
`{"a": 1}` is stored verbatim while the decoration-time payload option
`"DEC"` is ignored; the same call with the call-time payload absent stores
the empty object. -/
theorem claim10_payload_from_call_argument_witness :
    (({ workflow_instance := some ⟨3⟩, hasSession := true,
        workflow_retry_policy := none } : WorkflowContext).hasSession = true) ∧
    ((finalStepOf (_execute_workstep_wrapper "Cls" none "fn"
        (some (.pdict [("a", .pint 1)]))
        (some { workflow_instance := some ⟨3⟩, hasSession := true,
                workflow_retry_policy := none })
        none none "BIAN" (some (.pstr "DEC")) (fun _ => .ok .pnone))).map
          (fun r => r.payload_data)
      = some (PyVal.dumps (payloadOrEmpty (some (.pdict [("a", .pint 1)]))))) ∧
    (PyVal.dumps (payloadOrEmpty (some (.pdict [("a", .pint 1)])))
      = "\x7b\"a\": 1\x7d") ∧
    ((finalStepOf (_execute_workstep_wrapper "Cls" none "fn" none
        (some { workflow_instance := some ⟨3⟩, hasSession := true,
                workflow_retry_policy := none })
        none none "BIAN" (some (.pstr "DEC")) (fun _ => .ok .pnone))).map
          (fun r => r.payload_data)
      = some "\x7b\x7d") := by
  have h1 := claim10_payload_from_call_argument "Cls" none "fn"
    (some (.pdict [("a", .pint 1)]))
    { workflow_instance := some ⟨3⟩, hasSession := true, workflow_retry_policy := none }
    ⟨3⟩ none none "BIAN" (some (.pstr "DEC")) (some (.pstr "DEC2"))
    (fun _ => .ok .pnone) rfl rfl
  have h2 := claim10_payload_from_call_argument "Cls" none "fn" none
    { workflow_instance := some ⟨3⟩, hasSession := true, workflow_retry_policy := none }
    ⟨3⟩ none none "BIAN" (some (.pstr "DEC")) (some (.pstr "DEC2"))
    (fun _ => .ok .pnone) rfl rfl
  exact ⟨rfl, h1.1, rfl, h2.1⟩

end WorkflowMgmg
